import Mathlib

/-!
Verification of the availability-monitoring engine of pop-mart-watch.

The definitions below are a shallow embedding of the Python sources:
  * `src/src/monitor.py` — the `Monitor` class (classifier, registry of
    monitored items, check cycle, persistence helpers);
  * `src/src/storage.py` — the `MonitorStore` class (durable store).

Machine-level details that the claims do not depend on (the Selenium
driver, HTTP, logging) are abstracted as explicit inputs: the page text,
a `is404` flag (the driver-based 404 heuristic), and the price found in
the page markup are parameters of the classification function.
-/

namespace PopMartWatch

/-- Embedding of the `ProductStatus` enum of monitor.py. -/
inductive ProductStatus where
  | unknown
  | in_stock
  | sold_out
  | coming_soon
  | off_shelf
deriving DecidableEq, Repr

/-- `ProductStatus.value`: the `.value` string of each Python enum member. -/
def ProductStatus.value : ProductStatus → String
  | .unknown => "unknown"
  | .in_stock => "in_stock"
  | .sold_out => "sold_out"
  | .coming_soon => "coming_soon"
  | .off_shelf => "off_shelf"

/-- `Monitor.AVAILABLE_KEYWORDS`, verbatim from monitor.py. -/
def AVAILABLE_KEYWORDS : List String :=
  ["ADD TO BAG", "add to bag", "add to cart", "buy now", "purchase", "checkout",
   "in stock", "add to shopping bag", "add to my bag", "Add to Cart", "BUY NOW"]

/-- `Monitor.SOLD_OUT_KEYWORDS`, verbatim from monitor.py. -/
def SOLD_OUT_KEYWORDS : List String :=
  ["SOLD OUT", "sold out", "out of stock", "notify me when available",
   "NOTIFY ME WHEN AVAILABLE", "currently unavailable", "not available",
   "Item Unavailable", "item unavailable", "Unavailable", "Item unavailable"]

/-- `Monitor.COMING_SOON_KEYWORDS`, verbatim from monitor.py. -/
def COMING_SOON_KEYWORDS : List String :=
  ["coming soon", "stay tuned", "notify me"]

/-- `needle` is a leading segment of `hay` (character lists). -/
def startsWithList : List Char → List Char → Bool
  | [], _ => true
  | _ :: _, [] => false
  | a :: as, b :: bs => a == b && startsWithList as bs

/-- Python's substring test `needle in hay` on character lists. -/
def listSubstr (needle : List Char) : List Char → Bool
  | [] => startsWithList needle []
  | c :: rest => startsWithList needle (c :: rest) || listSubstr needle rest

/-- Python's `str.lower()` (ASCII case folding, which covers every keyword). -/
def strLower (s : String) : String := ⟨s.data.map Char.toLower⟩

/-- Python's `needle in hay` on strings. -/
def pyIn (needle hay : String) : Bool := listSubstr needle.data hay.data

/-- One keyword-family scan of monitor.py: `keyword.lower() in html_lower`
for some keyword of the family. -/
def containsKeyword (kws : List String) (htmlLower : String) : Bool :=
  kws.any (fun k => pyIn (strLower k) htmlLower)

/-- The inner `check_status` coroutine of `Monitor.check_item_status`
(monitor.py lines 573-599): sold-out, then coming-soon, then available
keywords, else unknown.  `priceFound` stands for the price extracted from
the page markup by the driver in the in-stock branch. -/
def checkStatusResult (htmlLower : String) (priceFound : Option String) :
    ProductStatus × Option String :=
  if containsKeyword SOLD_OUT_KEYWORDS htmlLower then (.sold_out, none)
  else if containsKeyword COMING_SOON_KEYWORDS htmlLower then (.coming_soon, none)
  else if containsKeyword AVAILABLE_KEYWORDS htmlLower then (.in_stock, priceFound)
  else (.unknown, none)

/-- The classification core of `Monitor.check_item_status` (monitor.py lines
569-607): if the 404 heuristic fired, `OFF_SHELF`; otherwise the keyword
scan on the lower-cased page text. -/
def checkItemStatusCore (is404 : Bool) (html : String) (priceFound : Option String) :
    ProductStatus × Option String :=
  if is404 then (.off_shelf, none)
  else checkStatusResult (strLower html) priceFound

/-- C1: classification applies the keyword families in the fixed precedence
order off-shelf > sold-out > coming-soon > in-stock > unknown; in
particular any page text containing both "sold out" and "add to cart"
classifies as `sold_out`, not `in_stock`. -/
theorem c1_precedence (html : String) (priceFound : Option String) :
    checkItemStatusCore true html priceFound = (ProductStatus.off_shelf, none)
    ∧ (containsKeyword SOLD_OUT_KEYWORDS (strLower html) = true →
        checkItemStatusCore false html priceFound = (ProductStatus.sold_out, none))
    ∧ (containsKeyword SOLD_OUT_KEYWORDS (strLower html) = false →
        containsKeyword COMING_SOON_KEYWORDS (strLower html) = true →
        checkItemStatusCore false html priceFound = (ProductStatus.coming_soon, none))
    ∧ (containsKeyword SOLD_OUT_KEYWORDS (strLower html) = false →
        containsKeyword COMING_SOON_KEYWORDS (strLower html) = false →
        containsKeyword AVAILABLE_KEYWORDS (strLower html) = true →
        checkItemStatusCore false html priceFound = (ProductStatus.in_stock, priceFound))
    ∧ (containsKeyword SOLD_OUT_KEYWORDS (strLower html) = false →
        containsKeyword COMING_SOON_KEYWORDS (strLower html) = false →
        containsKeyword AVAILABLE_KEYWORDS (strLower html) = false →
        checkItemStatusCore false html priceFound = (ProductStatus.unknown, none))
    ∧ (pyIn "sold out" (strLower html) = true →
        pyIn "add to cart" (strLower html) = true →
        checkItemStatusCore false html priceFound = (ProductStatus.sold_out, none)) := by
  refine ⟨rfl, ?_, ?_, ?_, ?_, ?_⟩
  · intro h1
    simp [checkItemStatusCore, checkStatusResult, h1]
  · intro h1 h2
    simp [checkItemStatusCore, checkStatusResult, h1, h2]
  · intro h1 h2 h3
    simp [checkItemStatusCore, checkStatusResult, h1, h2, h3]
  · intro h1 h2 h3
    simp [checkItemStatusCore, checkStatusResult, h1, h2, h3]
  · intro hso _
    have h1 : containsKeyword SOLD_OUT_KEYWORDS (strLower html) = true := by
      refine List.any_eq_true.mpr ⟨"sold out", by decide, ?_⟩
      have : strLower "sold out" = "sold out" := by decide
      rw [this]
      exact hso
    simp [checkItemStatusCore, checkStatusResult, h1]

/-- C1 witness: a concrete page text containing both a sold-out and an
in-stock indicator classifies as sold_out. -/
theorem c1_precedence_witness :
    checkItemStatusCore false "Plush toy SOLD OUT - Add To Cart soon" (some "$19.99")
      = (ProductStatus.sold_out, none) :=
  (c1_precedence "Plush toy SOLD OUT - Add To Cart soon" (some "$19.99")).2.2.2.2.2
    (by decide) (by decide)

/-! The registry of monitored items (monitor.py, `Monitor.monitored_items`).
A Python dict is embedded as an association list with unique keys, in
insertion order. -/

/-- One value of the `monitored_items` dict.  `price`'s outer `Option`
records whether the `'price'` key is present at all (items created by
`add_monitored_item` have no such key; `check_all_items` adds one, whose
value may itself be `None`). -/
structure MonitoredItem where
  name : String
  last_status : String
  last_check : Option String
  last_notification : Option String
  icon_url : Option String
  price : Option (Option String)
deriving DecidableEq, Repr

/-- The `monitored_items` dict: URL-keyed association list. -/
abbrev Registry := List (String × MonitoredItem)

/-- Dict lookup `reg[url]` / membership test `url in reg`. -/
def lookupReg : Registry → String → Option MonitoredItem
  | [], _ => none
  | (u, it) :: rest, url => if u = url then some it else lookupReg rest url

/-- In-place mutation of the entry stored under `url` (Python
`reg[url].update(...)` / key assignment on an existing entry). -/
def updateReg : Registry → String → (MonitoredItem → MonitoredItem) → Registry
  | [], _, _ => []
  | (u, it) :: rest, url, f =>
      if u = url then (u, f it) :: updateReg rest url f
      else (u, it) :: updateReg rest url f

/-- The notification dict built by `Monitor.check_all_items` (monitor.py
lines 675-682): keys `url`, `name`, `status`, `message`, `price`,
`icon_url` — and no other key. -/
structure StatusNotice where
  url : String
  name : String
  status : String
  message : String
  price : Option String
  icon_url : Option String
deriving DecidableEq, Repr

/-- The `status_messages` dict of `check_all_items` (monitor.py lines
667-673), including Python's truthiness test `if price` on the in-stock
message (an empty string counts as no price). -/
def statusMessage (status : ProductStatus) (price : Option String) : String :=
  match status with
  | .in_stock =>
      match price with
      | some p => if p != "" then "🟢 商品已上架！价格: " ++ p else "🟢 商品已上架！"
      | none => "🟢 商品已上架！"
  | .sold_out => "🔴 商品已售罄"
  | .coming_soon => "🟡 商品即将发售"
  | .off_shelf => "⚫ 商品已下架"
  | .unknown => "❓ 商品状态未知"

/-- One loop iteration of `Monitor.check_all_items` (monitor.py lines
641-687) for snapshot entry `(url, item)` against the live registry
`reg`.  `results url` is the value of `await self.check_item_status(url)`
for that URL in this cycle. -/
def checkStep (now : String) (results : String → ProductStatus × Option String)
    (reg : Registry) (url : String) (item : MonitoredItem) :
    Registry × Option StatusNotice :=
  let current := results url
  let current_status := current.1
  let price := current.2
  let previous_status := item.last_status
  if current_status.value ≠ previous_status then
    if (lookupReg reg url).isSome then
      (updateReg reg url (fun it =>
          { it with last_status := current_status.value, last_check := some now,
                    last_notification := some now, price := some price }),
       some { url := url, name := item.name, status := current_status.value,
              message := statusMessage current_status price, price := price,
              icon_url := item.icon_url })
    else (reg, none)
  else
    if (lookupReg reg url).isSome then
      (updateReg reg url (fun it => { it with last_check := some now }), none)
    else (reg, none)

/-- The loop of `Monitor.check_all_items` over the snapshot
`items_to_check = dict(self.monitored_items)` taken at the start of the
cycle, threading the live registry and appending notifications in order.
The snapshot and the live registry are separate arguments because the
live dict can have lost entries (concurrent `remove_monitored_item`
at an await point) since the snapshot was taken. -/
def runItems (now : String) (results : String → ProductStatus × Option String) :
    List (String × MonitoredItem) → Registry → Registry × List StatusNotice
  | [], reg => (reg, [])
  | (url, item) :: rest, reg =>
      let step := checkStep now results reg url item
      let tail := runItems now results rest step.1
      (tail.1, step.2.toList ++ tail.2)

/-- Content of `data/monitored_items.json` as the monitor reads it: either
JSON text that parses back to a registry value, an empty file, or
unparseable bytes.  (`json.dump`/`json.load` with `ensure_ascii=False`
round-trip every registry value, Unicode names and nulls included, so the
byte-level encoding is abstracted to the parsed value.) -/
inductive MonitorFileContent where
  | validJson (reg : Registry)
  | emptyFile
  | corrupt
deriving DecidableEq, Repr

/-- `Monitor._save_monitored_items` (monitor.py lines 123-129): serialize
the whole registry into the data file. -/
def saveMonitoredItems (reg : Registry) : MonitorFileContent := .validJson reg

/-- `Monitor._load_monitored_items` (monitor.py lines 106-121): a missing
file leaves the initial `{}`; a parse failure is caught and leaves `{}`;
on success, the compat loop `if isinstance(item.get('last_status'), str)
or item.get('last_status') is None: item['last_status'] =
ProductStatus.UNKNOWN.value` rewrites the (always string-valued)
`last_status` of every loaded item to `"unknown"`. -/
def loadMonitoredItems (file : Option MonitorFileContent) : Registry :=
  match file with
  | none => []
  | some (.validJson reg) =>
      reg.map (fun e => (e.1, { e.2 with last_status := ProductStatus.unknown.value }))
  | some .emptyFile => []
  | some .corrupt => []

/-- The monitor's in-memory registry together with the content of its data
file. -/
structure MonitorState where
  monitored_items : Registry
  dataFile : Option MonitorFileContent
deriving DecidableEq, Repr

/-- The dict value inserted by `Monitor.add_monitored_item` (monitor.py
lines 155-161): status unknown, no timestamps, no `price` key. -/
def newMonitoredItem (name : String) (icon_url : Option String) : MonitoredItem :=
  { name := name, last_status := ProductStatus.unknown.value, last_check := none,
    last_notification := none, icon_url := icon_url, price := none }

/-- `Monitor.add_monitored_item` (monitor.py lines 150-163): refuse a URL
already present; otherwise insert and persist immediately. -/
def addMonitoredItem (st : MonitorState) (url name : String) (icon_url : Option String) :
    MonitorState × Bool :=
  if (lookupReg st.monitored_items url).isSome then (st, false)
  else
    let reg := st.monitored_items ++ [(url, newMonitoredItem name icon_url)]
    ({ monitored_items := reg, dataFile := some (saveMonitoredItems reg) }, true)

/-- `Monitor.check_all_items` (monitor.py lines 633-692): snapshot the
registry, run the per-item loop, save the updated registry, return the
collected notifications. -/
def checkAllItems (st : MonitorState) (results : String → ProductStatus × Option String)
    (now : String) : MonitorState × List StatusNotice :=
  let r := runItems now results st.monitored_items st.monitored_items
  ({ monitored_items := r.1, dataFile := some (saveMonitoredItems r.1) }, r.2)

/-! Helper lemmas about registry lookup and the per-item step. -/

theorem lookupReg_updateReg (reg : Registry) (url v : String)
    (f : MonitoredItem → MonitoredItem) :
    lookupReg (updateReg reg url f) v =
      if v = url then (lookupReg reg v).map f else lookupReg reg v := by
  induction reg with
  | nil => simp [updateReg, lookupReg]
  | cons e rest ih =>
      obtain ⟨u, it⟩ := e
      by_cases hu : u = url
      · subst hu
        by_cases hv : u = v
        · subst hv
          simp [updateReg, lookupReg, ih]
        · simp [updateReg, lookupReg, hv, ih]
      · by_cases hv : u = v
        · subst hv
          simp [updateReg, lookupReg, hu, ih]
        · simp [updateReg, lookupReg, hu, hv, ih]

theorem lookupReg_updateReg_other (reg : Registry) (url v : String)
    (f : MonitoredItem → MonitoredItem) (h : v ≠ url) :
    lookupReg (updateReg reg url f) v = lookupReg reg v := by
  rw [lookupReg_updateReg]
  simp [h]

theorem checkStep_fst_lookup_other (now : String)
    (results : String → ProductStatus × Option String) (reg : Registry)
    (url : String) (item : MonitoredItem) (v : String) (h : v ≠ url) :
    lookupReg (checkStep now results reg url item).1 v = lookupReg reg v := by
  simp only [checkStep]
  split
  · split
    · simp [lookupReg_updateReg_other _ _ _ _ h]
    · rfl
  · split
    · simp [lookupReg_updateReg_other _ _ _ _ h]
    · rfl

theorem checkStep_absent (now : String)
    (results : String → ProductStatus × Option String) (reg : Registry)
    (url : String) (item : MonitoredItem) (h : lookupReg reg url = none) :
    checkStep now results reg url item = (reg, none) := by
  simp [checkStep, h]

theorem checkStep_notice_url (now : String)
    (results : String → ProductStatus × Option String) (reg : Registry)
    (url : String) (item : MonitoredItem) (n : StatusNotice)
    (h : (checkStep now results reg url item).2 = some n) : n.url = url := by
  simp only [checkStep] at h
  split at h
  · split at h
    · injection h with h'
      subst h'
      rfl
    · exact Option.noConfusion h
  · split at h
    · exact Option.noConfusion h
    · exact Option.noConfusion h

theorem checkStep_fst_absent (now : String)
    (results : String → ProductStatus × Option String) (reg : Registry)
    (url : String) (item : MonitoredItem) (v : String)
    (h : lookupReg reg v = none) :
    lookupReg (checkStep now results reg url item).1 v = none := by
  by_cases huv : v = url
  · subst huv
    rw [checkStep_absent now results reg v item h]
    exact h
  · rw [checkStep_fst_lookup_other now results reg url item v huv]
    exact h

theorem runItems_absent (now : String)
    (results : String → ProductStatus × Option String)
    (snap : List (String × MonitoredItem)) :
    ∀ (live : Registry) (url : String), lookupReg live url = none →
      lookupReg (runItems now results snap live).1 url = none
      ∧ ∀ n ∈ (runItems now results snap live).2, n.url ≠ url := by
  induction snap with
  | nil =>
      intro live url h
      exact ⟨h, by simp [runItems]⟩
  | cons e rest ih =>
      intro live url h
      obtain ⟨u, it⟩ := e
      simp only [runItems]
      refine ⟨(ih _ _ (checkStep_fst_absent now results live u it url h)).1, ?_⟩
      intro n hn
      rcases List.mem_append.mp hn with hn | hn
      · by_cases hu : u = url
        · subst hu
          rw [checkStep_absent now results live u it h] at hn
          simp at hn
        · have hstep : (checkStep now results live u it).2 = some n := by
            cases hh : (checkStep now results live u it).2 with
            | none => rw [hh] at hn; simp at hn
            | some m => rw [hh] at hn; simp at hn; rw [hn]
          have hnu : n.url = u := checkStep_notice_url now results live u it n hstep
          intro hc
          exact hu (hnu ▸ hc)
      · exact (ih _ _ (checkStep_fst_absent now results live u it url h)).2 n hn

theorem runItems_frame (now : String)
    (results : String → ProductStatus × Option String)
    (snap : List (String × MonitoredItem)) :
    ∀ (live : Registry) (url : String), (∀ p ∈ snap, p.1 ≠ url) →
      lookupReg (runItems now results snap live).1 url = lookupReg live url
      ∧ ∀ n ∈ (runItems now results snap live).2, n.url ≠ url := by
  induction snap with
  | nil => intro live url _; exact ⟨rfl, by simp [runItems]⟩
  | cons e rest ih =>
      intro live url h
      obtain ⟨u, it⟩ := e
      have hu : u ≠ url := h (u, it) (by simp)
      have hrest : ∀ p ∈ rest, p.1 ≠ url := fun p hp => h p (List.mem_cons_of_mem _ hp)
      simp only [runItems]
      constructor
      · rw [(ih _ _ hrest).1,
          checkStep_fst_lookup_other now results live u it url (Ne.symm hu)]
      · intro n hn
        rcases List.mem_append.mp hn with hn | hn
        · have hstep : (checkStep now results live u it).2 = some n := by
            cases hh : (checkStep now results live u it).2 with
            | none => rw [hh] at hn; simp at hn
            | some m => rw [hh] at hn; simp at hn; rw [hn]
          have hnu : n.url = u := checkStep_notice_url now results live u it n hstep
          intro hc
          exact hu (hnu ▸ hc)
        · exact (ih _ _ hrest).2 n hn

theorem lookupReg_of_mem_nodup :
    ∀ (reg : Registry) (url : String) (item : MonitoredItem),
      (reg.map Prod.fst).Nodup → (url, item) ∈ reg → lookupReg reg url = some item := by
  intro reg
  induction reg with
  | nil => intro url item _ h; cases h
  | cons e rest ih =>
      intro url item hnd hmem
      obtain ⟨u, it⟩ := e
      rw [List.map_cons, List.nodup_cons] at hnd
      rcases List.mem_cons.mp hmem with hhead | htail
      · injection hhead with h1 h2
        subst h1
        subst h2
        simp [lookupReg]
      · have hu : u ≠ url := by
          intro hc
          subst hc
          exact hnd.1 (List.mem_map.mpr ⟨(u, item), htail, rfl⟩)
        simp only [lookupReg, if_neg hu]
        exact ih url item hnd.2 htail

theorem checkStep_same_status (now : String)
    (results : String → ProductStatus × Option String) (reg : Registry)
    (url : String) (item : MonitoredItem)
    (hlook : lookupReg reg url = some item)
    (heq : (results url).1.value = item.last_status) :
    checkStep now results reg url item =
      (updateReg reg url (fun it => { it with last_check := some now }), none) := by
  unfold checkStep
  simp [heq, hlook]

theorem runItems_mem_same_status (now : String)
    (results : String → ProductStatus × Option String)
    (snap : List (String × MonitoredItem)) :
    ∀ (live : Registry) (url : String) (item : MonitoredItem),
      (snap.map Prod.fst).Nodup → (url, item) ∈ snap →
      lookupReg live url = some item →
      (results url).1.value = item.last_status →
      lookupReg (runItems now results snap live).1 url =
        some { item with last_check := some now }
      ∧ ∀ n ∈ (runItems now results snap live).2, n.url ≠ url := by
  induction snap with
  | nil => intro live url item _ hmem; cases hmem
  | cons e rest ih =>
      intro live url item hnd hmem hlook heq
      obtain ⟨u, it⟩ := e
      rw [List.map_cons, List.nodup_cons] at hnd
      rcases List.mem_cons.mp hmem with hhead | htail
      · injection hhead with h1 h2
        subst h1
        subst h2
        simp only [runItems, checkStep_same_status now results live url item hlook heq]
        have hrest : ∀ p ∈ rest, p.1 ≠ url := by
          intro p hp hc
          exact hnd.1 (List.mem_map.mpr ⟨p, hp, hc⟩)
        have hframe := runItems_frame now results rest
          (updateReg live url (fun it => { it with last_check := some now })) url hrest
        refine ⟨?_, ?_⟩
        · rw [hframe.1, lookupReg_updateReg]
          simp [hlook]
        · intro n hn
          simp only [Option.toList_none, List.nil_append] at hn
          exact hframe.2 n hn
      · have hu : u ≠ url := by
          intro hc
          subst hc
          exact hnd.1 (List.mem_map.mpr ⟨(u, item), htail, rfl⟩)
        simp only [runItems]
        have hlook2 : lookupReg (checkStep now results live u it).1 url = some item := by
          rw [checkStep_fst_lookup_other now results live u it url (fun hc => hu hc.symm)]
          exact hlook
        have := ih (checkStep now results live u it).1 url item hnd.2 htail hlook2 heq
        refine ⟨this.1, ?_⟩
        intro n hn
        rcases List.mem_append.mp hn with hn | hn
        · have hstep : (checkStep now results live u it).2 = some n := by
            cases hh : (checkStep now results live u it).2 with
            | none => rw [hh] at hn; simp at hn
            | some m => rw [hh] at hn; simp at hn; rw [hn]
          have hnu : n.url = u := checkStep_notice_url now results live u it n hstep
          intro hc
          exact hu (hnu ▸ hc)
        · exact this.2 n hn

/-! Concrete fixtures used by witnesses and counterexamples. -/

/-- A monitored item whose stored status is `in_stock`. -/
def itemFoo : MonitoredItem :=
  { name := "Foo", last_status := "in_stock", last_check := none,
    last_notification := none, icon_url := none, price := none }

/-- The same item with stored status `coming_soon`. -/
def itemFooComingSoon : MonitoredItem := { itemFoo with last_status := "coming_soon" }

/-- A check cycle in which every fetch/classification fails (the monitor
returns `(ProductStatus.UNKNOWN, None)` for every URL). -/
def resultsAllUnknown : String → ProductStatus × Option String :=
  fun _ => (ProductStatus.unknown, none)

/-- A check cycle in which every page classifies as sold out. -/
def resultsAllSoldOut : String → ProductStatus × Option String :=
  fun _ => (ProductStatus.sold_out, none)

/-- A check cycle in which every page classifies as in stock, no price. -/
def resultsAllInStock : String → ProductStatus × Option String :=
  fun _ => (ProductStatus.in_stock, none)

/-- C9: a URL absent from the live registry when the cycle's per-item
update runs (it was removed after the snapshot `items_to_check =
dict(self.monitored_items)` was taken) is never re-inserted by the cycle
and never yields a notification: both mutation branches and the
notification append of `check_all_items` sit under the
`if url in self.monitored_items` guard. -/
theorem c9_removed_url_untouched (now : String)
    (results : String → ProductStatus × Option String)
    (snap : List (String × MonitoredItem)) (live : Registry) (url : String)
    (h : lookupReg live url = none) :
    lookupReg (runItems now results snap live).1 url = none
    ∧ ∀ n ∈ (runItems now results snap live).2, n.url ≠ url :=
  runItems_absent now results snap live url h

/-- C9 witness: one snapshot entry whose URL was removed from the live
registry before processing: the final registry still lacks it and the
cycle emits no notification for it. -/
theorem c9_removed_url_untouched_witness :
    lookupReg [] "https://www.popmart.com/products/1/foo" = none
    ∧ (lookupReg
          (runItems "t1" resultsAllSoldOut
            [("https://www.popmart.com/products/1/foo", itemFoo)] []).1
          "https://www.popmart.com/products/1/foo" = none
        ∧ ∀ n ∈ (runItems "t1" resultsAllSoldOut
            [("https://www.popmart.com/products/1/foo", itemFoo)] []).2,
            n.url ≠ "https://www.popmart.com/products/1/foo") :=
  ⟨by decide,
   c9_removed_url_untouched "t1" resultsAllSoldOut
     [("https://www.popmart.com/products/1/foo", itemFoo)] []
     "https://www.popmart.com/products/1/foo" (by decide)⟩

/-- C8: for an item whose newly classified status equals its stored
status, the cycle emits no notification for the item and updates only
`last_check`; `name`, `last_status`, `last_notification`, `price` and
`icon_url` are untouched. -/
theorem c8_no_spurious_events (st : MonitorState)
    (results : String → ProductStatus × Option String) (now url : String)
    (item : MonitoredItem)
    (hnd : (st.monitored_items.map Prod.fst).Nodup)
    (hmem : (url, item) ∈ st.monitored_items)
    (heq : (results url).1.value = item.last_status) :
    lookupReg (checkAllItems st results now).1.monitored_items url =
      some { item with last_check := some now }
    ∧ ∀ n ∈ (checkAllItems st results now).2, n.url ≠ url := by
  have hlook : lookupReg st.monitored_items url = some item :=
    lookupReg_of_mem_nodup st.monitored_items url item hnd hmem
  exact runItems_mem_same_status now results st.monitored_items
    st.monitored_items url item hnd hmem hlook heq

/-- C8 witness: a concrete cycle that re-classifies an in-stock item as
in stock: no notification, only `last_check` moves. -/
theorem c8_no_spurious_events_witness :
    (resultsAllInStock "https://www.popmart.com/products/1/foo").1.value =
      itemFoo.last_status
    ∧ (lookupReg
          (checkAllItems ⟨[("https://www.popmart.com/products/1/foo", itemFoo)], none⟩
            resultsAllInStock "t1").1.monitored_items
          "https://www.popmart.com/products/1/foo" =
        some { itemFoo with last_check := some "t1" }
       ∧ ∀ n ∈ (checkAllItems ⟨[("https://www.popmart.com/products/1/foo", itemFoo)], none⟩
            resultsAllInStock "t1").2,
           n.url ≠ "https://www.popmart.com/products/1/foo") :=
  ⟨by decide,
   c8_no_spurious_events ⟨[("https://www.popmart.com/products/1/foo", itemFoo)], none⟩
     resultsAllInStock "t1" "https://www.popmart.com/products/1/foo" itemFoo
     (by decide) (by decide) (by decide)⟩

/-- C2 counterexample: the code has no consecutive-failure counter and no
`max_consecutive_failures_before_unknown` threshold.  A single failed
check (result `(UNKNOWN, None)`) of an item whose stored status is
`in_stock` already emits one `unknown` notification on the FIRST failure,
not the third. -/
theorem c2_counterexample :
    (checkAllItems ⟨[("https://www.popmart.com/products/1/foo", itemFoo)], none⟩
        resultsAllUnknown "t1").2.map (fun n => (n.url, n.status)) =
      [("https://www.popmart.com/products/1/foo", "unknown")]
    ∧ (checkAllItems ⟨[("https://www.popmart.com/products/1/foo", itemFoo)], none⟩
        resultsAllUnknown "t1").2.length = 1 := by
  decide

/-- C2 (amended): a failed check is treated as an ordinary `unknown`
classification.  For an item whose stored status is not `unknown`, the
first failing cycle emits exactly one notification with status `unknown`
and rewrites the stored status, and a second consecutive failing cycle
emits nothing (the stored status is already `unknown`). -/
theorem c2_failure_is_immediate (url : String) (item : MonitoredItem)
    (results : String → ProductStatus × Option String) (now now2 : String)
    (hst : item.last_status ≠ "unknown")
    (hres : results url = (ProductStatus.unknown, none)) :
    (checkAllItems ⟨[(url, item)], none⟩ results now).2 =
      [{ url := url, name := item.name, status := "unknown",
         message := statusMessage ProductStatus.unknown none, price := none,
         icon_url := item.icon_url }]
    ∧ (checkAllItems ⟨[(url, item)], none⟩ results now).1.monitored_items =
        [(url,
          { item with
              last_status := "unknown", last_check := some now,
              last_notification := some now, price := some none })]
    ∧ (checkAllItems (checkAllItems ⟨[(url, item)], none⟩ results now).1
        results now2).2 = [] := by
  have h1 : "unknown" ≠ item.last_status := Ne.symm hst
  refine ⟨?_, ?_, ?_⟩ <;>
    simp [checkAllItems, runItems, checkStep, lookupReg, updateReg,
      saveMonitoredItems, statusMessage, ProductStatus.value, hres, h1]

/-- C2 witness: the amended behaviour at a concrete in-stock item. -/
theorem c2_failure_is_immediate_witness :
    itemFoo.last_status ≠ "unknown"
    ∧ ((checkAllItems ⟨[("https://www.popmart.com/products/1/foo", itemFoo)], none⟩
          resultsAllUnknown "t1").2 =
        [{ url := "https://www.popmart.com/products/1/foo", name := itemFoo.name,
           status := "unknown", message := statusMessage ProductStatus.unknown none,
           price := none, icon_url := itemFoo.icon_url }]
      ∧ (checkAllItems ⟨[("https://www.popmart.com/products/1/foo", itemFoo)], none⟩
          resultsAllUnknown "t1").1.monitored_items =
          [("https://www.popmart.com/products/1/foo",
            { itemFoo with
                last_status := "unknown", last_check := some "t1",
                last_notification := some "t1", price := some none })]
      ∧ (checkAllItems
          (checkAllItems ⟨[("https://www.popmart.com/products/1/foo", itemFoo)], none⟩
            resultsAllUnknown "t1").1 resultsAllUnknown "t2").2 = []) :=
  ⟨by decide,
   c2_failure_is_immediate "https://www.popmart.com/products/1/foo" itemFoo
     resultsAllUnknown "t1" "t2" (by decide) rfl⟩

/-- C3: the notification dict built by `check_all_items` does not carry
the previous status.  Two cycles that differ only in the stored previous
status (`in_stock` vs `coming_soon`), both re-classified `sold_out`, emit
identical notifications — while each change emits exactly one.  (The
consumer `DiscordBot.monitor_products` reads `notification.old_status`,
which no notification provides.) -/
theorem c3_event_lacks_old_status :
    (checkAllItems ⟨[("https://www.popmart.com/products/1/foo", itemFoo)], none⟩
        resultsAllSoldOut "t1").2.length = 1
    ∧ (checkAllItems ⟨[("https://www.popmart.com/products/1/foo", itemFoo)], none⟩
        resultsAllSoldOut "t1").2 =
      (checkAllItems
        ⟨[("https://www.popmart.com/products/1/foo", itemFooComingSoon)], none⟩
        resultsAllSoldOut "t1").2 := by
  decide

/-- The registry of C4's failing input: one item with status `in_stock`,
a Unicode name, and a present-but-null price. -/
def regC4 : Registry :=
  [("https://www.popmart.com/products/675/LABUBU",
    { name := "LABUBU 坐坐派对", last_status := "in_stock", last_check := none,
      last_notification := none, icon_url := none, price := some none })]

/-- C4: the save/load round trip is NOT the identity.  The compat loop of
`_load_monitored_items` rewrites every (string-valued) `last_status` to
`"unknown"`, so the stored status is lost on reload; the other fields
(Unicode name, null price) do round-trip. -/
theorem c4_roundtrip_resets_status :
    loadMonitoredItems (some (saveMonitoredItems regC4)) ≠ regC4
    ∧ (loadMonitoredItems (some (saveMonitoredItems regC4))).map
        (fun e => e.2.last_status) = ["unknown"]
    ∧ (loadMonitoredItems (some (saveMonitoredItems regC4))).map
        (fun e => (e.1, e.2.name, e.2.price)) =
      regC4.map (fun e => (e.1, e.2.name, e.2.price)) := by
  refine ⟨?_, by decide, by decide⟩
  decide

/-- C7: `add_monitored_item` returns false and changes nothing when the
URL is already tracked; otherwise it inserts the URL with status
`unknown` (no timestamps, no price key), persists the whole registry
immediately, and returns true; adding the same URL twice leaves exactly
one entry. -/
theorem c7_add_item (st : MonitorState) (url name name2 : String)
    (icon icon2 : Option String) :
    ((lookupReg st.monitored_items url).isSome = true →
        addMonitoredItem st url name icon = (st, false))
    ∧ ((lookupReg st.monitored_items url).isSome = false →
        addMonitoredItem st url name icon =
          ({ monitored_items := st.monitored_items ++ [(url, newMonitoredItem name icon)],
             dataFile := some (saveMonitoredItems
               (st.monitored_items ++ [(url, newMonitoredItem name icon)])) }, true))
    ∧ (newMonitoredItem name icon).last_status = "unknown"
    ∧ (addMonitoredItem ⟨[], none⟩ url name icon).2 = true
    ∧ ((addMonitoredItem (addMonitoredItem ⟨[], none⟩ url name icon).1 url name2 icon2).2 = false
       ∧ (addMonitoredItem (addMonitoredItem ⟨[], none⟩ url name icon).1
            url name2 icon2).1.monitored_items.length = 1) := by
  refine ⟨?_, ?_, rfl, ?_, ?_, ?_⟩
  · intro h
    simp [addMonitoredItem, h]
  · intro h
    simp [addMonitoredItem, h]
  · simp [addMonitoredItem, lookupReg]
  · simp [addMonitoredItem, lookupReg]
  · simp [addMonitoredItem, lookupReg]

/-- C7 witness: scenario E at a concrete URL: the second add fails and
the registry has one entry. -/
theorem c7_add_item_witness :
    (lookupReg [("https://x/1", itemFoo)] "https://x/1").isSome = true
    ∧ addMonitoredItem ⟨[("https://x/1", itemFoo)], none⟩ "https://x/1" "Foo" none =
        (⟨[("https://x/1", itemFoo)], none⟩, false)
    ∧ ((addMonitoredItem (addMonitoredItem ⟨[], none⟩ "https://x/1" "Foo" none).1
          "https://x/1" "Foo" none).2 = false
       ∧ (addMonitoredItem (addMonitoredItem ⟨[], none⟩ "https://x/1" "Foo" none).1
            "https://x/1" "Foo" none).1.monitored_items.length = 1) :=
  ⟨by decide,
   (c7_add_item ⟨[("https://x/1", itemFoo)], none⟩ "https://x/1" "Foo" "Foo" none none).1
     (by decide),
   (c7_add_item ⟨[], none⟩ "https://x/1" "Foo" "Foo" none none).2.2.2.2⟩

/-! File-system trace model for the persistence discipline (C5). -/

/-- A file-system operation as performed by the save/load paths. -/
inductive FsOp where
  | openTruncate (path : String)
  | writeAll (path : String) (content : MonitorFileContent)
  | renameFile (src dst : String)
deriving DecidableEq, Repr

/-- A file system: mapping from path to file content. -/
abbrev FileSys := List (String × MonitorFileContent)

/-- Content stored under a path. -/
def lookupFile : FileSys → String → Option MonitorFileContent
  | [], _ => none
  | (p, c) :: rest, q => if p = q then some c else lookupFile rest q

/-- Delete a path. -/
def removeFile : FileSys → String → FileSys
  | [], _ => []
  | (p, c) :: rest, q =>
      if p = q then removeFile rest q else (p, c) :: removeFile rest q

/-- Create or overwrite a path with the given content. -/
def setFile (fs : FileSys) (p : String) (c : MonitorFileContent) : FileSys :=
  (p, c) :: removeFile fs p

/-- Effect of one operation: `open(path, 'w')` truncates the file to
empty, a completed dump replaces its content, `os.rename` moves a file
over the destination. -/
def applyFsOp (fs : FileSys) : FsOp → FileSys
  | .openTruncate p => setFile fs p .emptyFile
  | .writeAll p c => setFile fs p c
  | .renameFile src dst =>
      match lookupFile fs src with
      | some c => setFile (removeFile fs src) dst c
      | none => fs

/-- Run a sequence of operations; a crash mid-save is running only a
front part (`List.take`) of the sequence. -/
def runFsOps (fs : FileSys) : List FsOp → FileSys
  | [] => fs
  | op :: rest => runFsOps (applyFsOp fs op) rest

/-- The operations `Monitor._save_monitored_items` performs (monitor.py
lines 123-129; `MonitorStore.save_items`, storage.py lines 61-70, has the
same shape): `open(self.data_file, 'w')` truncates the durable file in
place, then `json.dump` writes the serialized registry into it.  There is
no staging file and no rename anywhere in either save path. -/
def saveMonitoredItemsOps (path : String) (reg : Registry) : List FsOp :=
  [FsOp.openTruncate path, FsOp.writeAll path (saveMonitoredItems reg)]

/-- Spec-side definition (the claim's words): a save is staged-and-atomic
when it writes the new content to a distinct staging path and then
renames the staging file over the durable file. -/
def atomicReplacePattern (durable : String) (ops : List FsOp) : Prop :=
  ∃ staging content, staging ≠ durable ∧
    ops = [FsOp.writeAll staging content, FsOp.renameFile staging durable]

/-- C5 counterexample: the concrete operation sequence of a save is an
in-place truncate-then-write of the durable file itself; it does not
match the staging-then-atomic-replace pattern the claim asserts. -/
theorem c5_counterexample :
    ¬ atomicReplacePattern "data/monitored_items.json"
        (saveMonitoredItemsOps "data/monitored_items.json" regC4) := by
  rintro ⟨s, c, hne, h⟩
  simp [saveMonitoredItemsOps] at h

/-- C5 (amended): each save writes the full registry, but directly into
the durable file: after the complete sequence the file holds exactly the
new registry, while a crash between the truncating open and the write
(running only the first operation) leaves an empty file — neither the old
nor any valid registry content. -/
theorem c5_save_not_atomic (path : String) (reg : Registry) (fs : FileSys) :
    lookupFile (runFsOps fs (saveMonitoredItemsOps path reg)) path =
      some (MonitorFileContent.validJson reg)
    ∧ lookupFile (runFsOps fs ((saveMonitoredItemsOps path reg).take 1)) path =
        some MonitorFileContent.emptyFile
    ∧ ∀ old : Registry,
        MonitorFileContent.emptyFile ≠ MonitorFileContent.validJson old := by
  refine ⟨?_, ?_, fun old => by simp⟩
  · simp [saveMonitoredItemsOps, runFsOps, applyFsOp, setFile, lookupFile,
      saveMonitoredItems]
  · simp [saveMonitoredItemsOps, runFsOps, applyFsOp, setFile, lookupFile]

/-- C5 witness: the amended save behaviour at a concrete path, registry
and (initially empty) file system. -/
theorem c5_save_not_atomic_witness :
    lookupFile
        (runFsOps [] (saveMonitoredItemsOps "data/monitored_items.json" regC4))
        "data/monitored_items.json" =
      some (MonitorFileContent.validJson regC4)
    ∧ lookupFile
        (runFsOps []
          ((saveMonitoredItemsOps "data/monitored_items.json" regC4).take 1))
        "data/monitored_items.json" =
        some MonitorFileContent.emptyFile
    ∧ ∀ old : Registry,
        MonitorFileContent.emptyFile ≠ MonitorFileContent.validJson old :=
  c5_save_not_atomic "data/monitored_items.json" regC4 []

/-! Embedding of src/src/storage.py (`MonitorStore`). -/

/-- Content of the store's JSON file: parseable JSON (a list of item
dicts), an empty file (`os.path.getsize(...) == 0`), or unparseable
bytes. -/
inductive StoreFileContent (α : Type) where
  | validJson (items : List α)
  | emptyFile
  | corrupt
deriving DecidableEq, Repr

/-- The store's durable file and its `.bak` sibling. -/
structure StoreState (α : Type) where
  file : Option (StoreFileContent α)
  backupFile : Option (StoreFileContent α)
deriving DecidableEq, Repr

/-- `MonitorStore.load_items` (storage.py lines 34-59): a missing or
empty file yields `[]` and is persisted at once (`save_items`); a
`json.JSONDecodeError` renames the corrupt file to `<file>.bak` and then
persists `[]`; a parseable file yields its items unchanged. -/
def loadItems {α : Type} (st : StoreState α) : StoreState α × List α :=
  match st.file with
  | none => ({ st with file := some (.validJson []) }, [])
  | some .emptyFile => ({ st with file := some (.validJson []) }, [])
  | some (.validJson items) => (st, items)
  | some .corrupt =>
      ({ file := some (.validJson []), backupFile := some .corrupt }, [])

/-- C6: the store's load never fails: a missing (or empty) durable file
yields an empty registry which is persisted immediately; a corrupt file
is moved aside to the backup and an empty registry is returned (and
persisted); a valid file yields its items. -/
theorem c6_load_never_fails (backup : Option (StoreFileContent MonitoredItem))
    (items : List MonitoredItem) :
    loadItems { file := none, backupFile := backup } =
      ({ file := some (.validJson []), backupFile := backup },
        ([] : List MonitoredItem))
    ∧ loadItems { file := some .emptyFile, backupFile := backup } =
      ({ file := some (.validJson []), backupFile := backup },
        ([] : List MonitoredItem))
    ∧ loadItems { file := some .corrupt, backupFile := backup } =
      ({ file := some (.validJson []), backupFile := some .corrupt },
        ([] : List MonitoredItem))
    ∧ loadItems { file := some (.validJson items), backupFile := backup } =
      ({ file := some (.validJson items), backupFile := backup }, items) :=
  ⟨rfl, rfl, rfl, rfl⟩

/-- C6 witness: the load contract at a concrete backup state and item
list. -/
theorem c6_load_never_fails_witness :
    loadItems { file := none, backupFile := (none : Option (StoreFileContent MonitoredItem)) } =
      ({ file := some (.validJson []), backupFile := none },
        ([] : List MonitoredItem))
    ∧ loadItems { file := some .emptyFile,
                  backupFile := (none : Option (StoreFileContent MonitoredItem)) } =
      ({ file := some (.validJson []), backupFile := none },
        ([] : List MonitoredItem))
    ∧ loadItems { file := some .corrupt,
                  backupFile := (none : Option (StoreFileContent MonitoredItem)) } =
      ({ file := some (.validJson []), backupFile := some .corrupt },
        ([] : List MonitoredItem))
    ∧ loadItems { file := some (.validJson [itemFoo]), backupFile := none } =
      ({ file := some (.validJson [itemFoo]), backupFile := none }, [itemFoo]) :=
  c6_load_never_fails none [itemFoo]

/-! Embedding of `Monitor.parse_product_info` (monitor.py lines 131-148). -/

/-- The literal part of the regex `/products/([^/]+)`. -/
def prodMarker : List Char := "/products/".data

/-- Attempt of the pattern `/products/([^/]+)` anchored at one position:
it matches when the marker occurs here followed by at least one non-slash
character, and captures the maximal run of non-slash characters (the
regex `+` is greedy). -/
def productSegAt (t : List Char) : Option (List Char) :=
  if startsWithList prodMarker t then
    match (t.drop prodMarker.length).takeWhile (fun ch => ch != '/') with
    | [] => none
    | s => some s
  else none

/-- `re.search(r'/products/([^/]+)', url)`: scan left to right for the
first position where the whole pattern matches, returning the captured
group. -/
def findProductId : List Char → Option (List Char)
  | [] => none
  | c :: rest =>
      match productSegAt (c :: rest) with
      | some s => some s
      | none => findProductId rest

/-- `re.search(r'/([^/]+)$', url)`: the trailing run of non-slash
characters, provided it is nonempty and some slash precedes it. -/
def lastUrlSegment (l : List Char) : Option (List Char) :=
  let run := l.reverse.takeWhile (fun ch => ch != '/')
  if run.isEmpty then none
  else if (l.reverse.dropWhile (fun ch => ch != '/')).isEmpty then none
  else some run.reverse

/-- The dict returned by `parse_product_info`. -/
structure ProductInfo where
  id : String
  name : String
deriving DecidableEq, Repr

/-- `Monitor.parse_product_info`: `none` models the raised `ValueError`;
otherwise the id is the captured `/products/` segment and the name is the
final-segment match, falling back to the id when that regex fails. -/
def parseProductInfo (url : String) : Option ProductInfo :=
  match findProductId url.data with
  | none => none
  | some pid =>
      let name :=
        match lastUrlSegment url.data with
        | some n => n
        | none => pid
      some { id := ⟨pid⟩, name := ⟨name⟩ }

/-- Spec-side reading of "the URL contains a '/products/<segment>'
component": some position of the URL string starts with `/products/`
followed by a nonempty segment (`List.tails` enumerates every
position), and the first such position carries the segment. -/
def specFirstProductSeg (url : String) : Option (List Char) :=
  (url.data.tails.filterMap productSegAt).head?

/-- Spec-side: does the URL contain a '/products/<segment>' part at all? -/
def hasProductSeg (url : String) : Bool := (specFirstProductSeg url).isSome

/-- Spec-side "final path segment of the URL": everything after the last
slash (empty when the URL ends in a slash). -/
def finalPathSegment (url : String) : String :=
  ⟨(url.data.reverse.takeWhile (fun ch => ch != '/')).reverse⟩

theorem findProductId_eq_spec (l : List Char) :
    findProductId l = (l.tails.filterMap productSegAt).head? := by
  induction l with
  | nil => decide
  | cons c rest ih =>
      rw [List.tails_cons, List.filterMap_cons]
      cases h : productSegAt (c :: rest) with
      | some s => simp [findProductId, h]
      | none => simp [findProductId, h, ih]

theorem startsWithList_head (a : Char) (as : List Char) (b : Char) (bs : List Char)
    (h : startsWithList (a :: as) (b :: bs) = true) : a = b := by
  simp only [startsWithList, Bool.and_eq_true, beq_iff_eq] at h
  exact h.1

theorem productSegAt_marker (t : List Char) (s : List Char)
    (h : productSegAt t = some s) : startsWithList prodMarker t = true := by
  by_cases hc : startsWithList prodMarker t = true
  · exact hc
  · simp [productSegAt, hc] at h

theorem findProductId_slash (l : List Char) (s : List Char)
    (h : findProductId l = some s) : '/' ∈ l := by
  induction l with
  | nil => simp [findProductId] at h
  | cons c rest ih =>
      cases hp : productSegAt (c :: rest) with
      | some t =>
          have hsw : startsWithList prodMarker (c :: rest) = true :=
            productSegAt_marker _ _ hp
          have hmk : prodMarker = '/' :: "products/".data := by decide
          rw [hmk] at hsw
          have := startsWithList_head '/' _ c rest hsw
          rw [← this]
          exact List.mem_cons_self _ _
      | none =>
          simp only [findProductId, hp] at h
          exact List.mem_cons_of_mem _ (ih h)

theorem lastUrlSegment_eq (l : List Char) (n : List Char)
    (h : lastUrlSegment l = some n) :
    n = (l.reverse.takeWhile (fun ch => ch != '/')).reverse
    ∧ (l.reverse.takeWhile (fun ch => ch != '/')).isEmpty = false := by
  by_cases h1 : (l.reverse.takeWhile (fun ch => ch != '/')).isEmpty
  · simp [lastUrlSegment, h1] at h
  · by_cases h2 : (l.reverse.dropWhile (fun ch => ch != '/')).isEmpty
    · simp [lastUrlSegment, h1, h2] at h
    · rw [Bool.not_eq_true] at h1 h2
      simp [lastUrlSegment, h1, h2] at h
      exact ⟨h.symm, h1⟩

theorem lastUrlSegment_none (l : List Char)
    (h : lastUrlSegment l = none) :
    (l.reverse.takeWhile (fun ch => ch != '/')).isEmpty = true
    ∨ (l.reverse.dropWhile (fun ch => ch != '/')).isEmpty = true := by
  by_cases h1 : (l.reverse.takeWhile (fun ch => ch != '/')).isEmpty
  · exact Or.inl h1
  · by_cases h2 : (l.reverse.dropWhile (fun ch => ch != '/')).isEmpty
    · exact Or.inr h2
    · simp [lastUrlSegment, h1, h2] at h

theorem dropWhile_slash_ne_nil (l : List Char) (h : '/' ∈ l) :
    l.reverse.dropWhile (fun ch => ch != '/') ≠ [] := by
  intro hc
  have := List.dropWhile_eq_nil_iff.mp hc '/' (List.mem_reverse.mpr h)
  simp at this

/-- C10 counterexample: for a URL ending in a slash the parse succeeds,
but the returned name is the product id, not the final path segment of
the URL (which is empty). -/
theorem c10_counterexample :
    parseProductInfo "https://www.popmart.com/products/675/" =
      some { id := "675", name := "675" }
    ∧ finalPathSegment "https://www.popmart.com/products/675/" = ""
    ∧ ("675" : String) ≠ "" := by
  refine ⟨by decide, by decide, by decide⟩

/-- C10 (amended): `parse_product_info` fails with ValueError exactly when
no position of the URL string starts `/products/` followed by a non-slash
character; on success the id is the captured segment of the leftmost such
position, and the name is the final path segment of the URL when that
segment is nonempty — and otherwise the id itself. -/
theorem c10_parse_product_info (url : String) :
    (parseProductInfo url = none ↔ hasProductSeg url = false)
    ∧ ∀ info, parseProductInfo url = some info →
        specFirstProductSeg url = some info.id.data
        ∧ info.name = (if finalPathSegment url = "" then info.id
                       else finalPathSegment url) := by
  constructor
  · simp only [parseProductInfo, hasProductSeg, specFirstProductSeg,
      ← findProductId_eq_spec]
    cases h : findProductId url.data <;> simp [h]
  · intro info hinfo
    simp only [parseProductInfo] at hinfo
    cases h : findProductId url.data with
    | none => rw [h] at hinfo; exact absurd hinfo (by simp)
    | some pid =>
        rw [h] at hinfo
        have hslash : '/' ∈ url.data := findProductId_slash url.data pid h
        have hid : specFirstProductSeg url = some pid := by
          rw [specFirstProductSeg, ← findProductId_eq_spec, h]
        cases hl : lastUrlSegment url.data with
        | some n =>
            rw [hl] at hinfo
            injection hinfo with h'
            subst h'
            obtain ⟨hn, hne⟩ := lastUrlSegment_eq url.data n hl
            subst hn
            refine ⟨hid, ?_⟩
            have hfp : ¬ finalPathSegment url = "" := by
              intro hc
              have hd := congrArg String.data hc
              simp only [finalPathSegment] at hd
              simp only [List.reverse_eq_nil_iff] at hd
              simp [hd] at hne
            rw [if_neg hfp]
            rfl
        | none =>
            rw [hl] at hinfo
            injection hinfo with h'
            subst h'
            rcases lastUrlSegment_none url.data hl with h1 | h2
            · have hfp : finalPathSegment url = "" := by
                have hrun := List.isEmpty_iff.mp h1
                simp [finalPathSegment, hrun]
              refine ⟨hid, ?_⟩
              rw [if_pos hfp]
            · exact absurd (List.isEmpty_iff.mp h2)
                (dropWhile_slash_ne_nil url.data hslash)

/-- C10 witness: a well-formed product URL parses to id `675`, name equal
to the final path segment. -/
theorem c10_parse_product_info_witness :
    parseProductInfo "https://www.popmart.com/products/675/LABUBU" =
      some { id := "675", name := "LABUBU" }
    ∧ (specFirstProductSeg "https://www.popmart.com/products/675/LABUBU" =
         some ({ id := "675", name := "LABUBU" } : ProductInfo).id.data
       ∧ ({ id := "675", name := "LABUBU" } : ProductInfo).name =
           (if finalPathSegment "https://www.popmart.com/products/675/LABUBU" = ""
            then ({ id := "675", name := "LABUBU" } : ProductInfo).id
            else finalPathSegment "https://www.popmart.com/products/675/LABUBU")) :=
  ⟨by decide,
   (c10_parse_product_info "https://www.popmart.com/products/675/LABUBU").2
     { id := "675", name := "LABUBU" } (by decide)⟩

end PopMartWatch
